import Mathlib

/-!
Verification development for the cinematic-ugc-proxy video-generation core
(`server.cjs`): request normalization, Veo provider dispatch (submit, bounded
polling, ordered artifact extraction), Hedra and Kling provider paths, and the
HTTP-level response assembly.  JavaScript string operations used by the source
(`split`, `replace`, `startsWith`, truthiness, `||`) are modelled explicitly.
-/

set_option maxRecDepth 10000

/-! ## JavaScript string primitives -/

/-- JS truthiness of a string: truthy iff non-empty. -/
def jsTruthy (s : String) : Bool := !s.data.isEmpty

/-- JS truthiness of a possibly-undefined string (`none` models `undefined`/`null`). -/
def truthyOpt : Option String → Bool
  | none => false
  | some s => jsTruthy s

/-- JS `a || b` on possibly-undefined strings. -/
def jsOr (a b : Option String) : Option String := if truthyOpt a then a else b

/-- JS `a || d` where `d` is a (truthy) literal default. -/
def jsOrD (o : Option String) (d : String) : String :=
  match o with
  | some s => if jsTruthy s then s else d
  | none => d

/-- Fuel-indexed worker for JS `String.prototype.split` with a non-empty string
separator: scans left to right, cutting at each non-overlapping occurrence of
`sep`.  The fuel is an upper bound on the input length, so the `0` case for a
non-empty list is never reached from `jsSplitList`. -/
def splitGo (sep : List Char) : Nat → List Char → List (List Char)
  | _, [] => [[]]
  | 0, l => [l]
  | fuel + 1, c :: cs =>
    if sep.isPrefixOf (c :: cs) then
      [] :: splitGo sep fuel (cs.drop (sep.length - 1))
    else
      match splitGo sep fuel cs with
      | [] => [[c]]
      | h :: t => (c :: h) :: t

/-- JS `split` at the character-list level (non-empty separator). -/
def jsSplitList (sep l : List Char) : List (List Char) := splitGo sep l.length l

/-- JS `s.split(sep)` for a non-empty string separator. -/
def jsSplit (s sep : String) : List String :=
  if sep.data = [] then [s]
  else (jsSplitList sep.data s.data).map (fun l => ⟨l⟩)

/-- JS `s.startsWith(p)`. -/
def jsStartsWith (s p : String) : Bool := p.data.isPrefixOf s.data

/-- JS `s.replace(pat, repl)` with a plain-string pattern: replaces the first
occurrence only. -/
def jsReplaceFirst (s pat repl : String) : String :=
  match jsSplit s pat with
  | [] => s
  | [_] => s
  | h :: rest => h ++ repl ++ String.intercalate pat rest

/-- `sep` occurs in `l` starting at index `i`. -/
def occursAt (sep l : List Char) (i : Nat) : Bool := sep.isPrefixOf (l.drop i)

/-- Number of indices at which `sep` occurs in `l`. -/
def countOcc (sep l : List Char) : Nat :=
  ((List.range (l.length + 1)).filter (fun i => occursAt sep l i)).length

/-! ## Reference-image parsing (`generateVeoVideo`, lines 441-451)

The source matches `referenceImage` against the regex
`^data:(image\/\w+);base64,` to obtain the MIME type, and strips that prefix
to obtain the base64 payload (leaving the string unchanged when the regex does
not match). -/

/-- A character matched by the regex class `\w`. -/
def isWordChar (c : Char) : Bool := c.isAlphanum || c = '_'

/-- Match `^data:(image\/\w+);base64,` and return (mime type, remainder). -/
def parseDataImage (s : String) : Option (String × String) :=
  if "data:image/".data.isPrefixOf s.data then
    let rest := s.data.drop 11
    let w := rest.takeWhile isWordChar
    let tl := rest.drop w.length
    if w ≠ [] ∧ ";base64,".data.isPrefixOf tl then
      some (⟨"image/".data ++ w⟩, ⟨tl.drop 8⟩)
    else none
  else none

/-- `mimeMatch ? mimeMatch[1] : 'image/png'`. -/
def imageMimeType (referenceImage : String) : String :=
  match parseDataImage referenceImage with
  | some (m, _) => m
  | none => "image/png"

/-- `referenceImage.replace(/^data:image\/\w+;base64,/, '')`. -/
def imageBase64Payload (referenceImage : String) : String :=
  match parseDataImage referenceImage with
  | some (_, payload) => payload
  | none => referenceImage

/-! ## Request normalization (`/generate-video`, lines 338-365) -/

/-- The literal marker `. Script: "` used by the legacy `prompt` convention. -/
def scriptMarker : String := ". Script: \""

/-- The literal marker `". Style:` used by the legacy `prompt` convention. -/
def styleMarker : String := "\". Style:"

/-- `finalScriptText = scriptText || (prompt ? prompt.split('. Script: "')[1]?.split('". Style:')[0] : null) || prompt || ''`. -/
def finalScriptText (scriptText prompt : Option String) : String :=
  let extracted : Option String :=
    match prompt with
    | some p =>
      if jsTruthy p then
        ((jsSplit p scriptMarker)[1]?).map (fun seg => ((jsSplit seg styleMarker)[0]?).getD "")
      else none
    | none => none
  (jsOr (jsOr (jsOr scriptText extracted) prompt) (some "")).getD ""

/-- `finalDirection = direction || (prompt ? prompt.split('. Script: "')[0] : null) || ''`. -/
def finalDirection (direction prompt : Option String) : String :=
  let fromPrompt : Option String :=
    match prompt with
    | some p => if jsTruthy p then some (((jsSplit p scriptMarker)[0]?).getD "") else none
    | none => none
  (jsOr (jsOr direction fromPrompt) (some "")).getD ""

/-- Loosely-typed inbound request body (`req.body`); `none` models an absent
field. -/
structure RawRequest where
  scriptText : Option String := none
  direction : Option String := none
  referenceImage : Option String := none
  prompt : Option String := none
  imageUrl : Option String := none
  country : Option String := none
  provider : Option String := none
  videoStyle : Option String := none
  voiceAccent : Option String := none
  styleParams : Option String := none
  model : Option String := none
deriving DecidableEq

/-! ## Error taxonomy -/

/-- Failures of the Veo provider path. -/
inductive VeoError where
  | invalidImage
  | submitHttpError (status : Nat) (body : String)
  | submitApiError (msg : String)
  | noOperationName
  | pollHttpError (status : Nat) (body : String)
  | operationError (msg : String)
  | timeout
  | noArtifact
deriving DecidableEq

/-- Failures of the Hedra provider path. -/
inductive HedraError where
  | initError (msg : String)
  | videoError (msg : String)
  | pollHttpError (status : Nat)
  | generationFailed
  | timeout
deriving DecidableEq

/-- Failures of the Kling provider path. -/
inductive KlingError where
  | notConfigured
  | notYetImplemented
deriving DecidableEq

/-- Failures of one `/generate-video` call. -/
inductive GenError where
  | missingScript
  | missingImage
  | veo (e : VeoError)
  | hedra (e : HedraError)
  | kling (e : KlingError)
deriving DecidableEq

/-- The two normalization failures are the spec's `MissingField` class. -/
def GenError.isMissingField : GenError → Bool
  | .missingScript => true
  | .missingImage => true
  | _ => false

/-- Canonical request produced by normalization. -/
structure NormalizedRequest where
  scriptText : String
  direction : String
  referenceImage : String
deriving DecidableEq

/-- Field reconciliation and the two required-field checks (lines 345-365). -/
def normalizeRequest (req : RawRequest) : Except GenError NormalizedRequest :=
  let fst := finalScriptText req.scriptText req.prompt
  let fdir := finalDirection req.direction req.prompt
  let fimg := jsOr req.referenceImage req.imageUrl
  if !jsTruthy fst then .error .missingScript
  else if !truthyOpt fimg then .error .missingImage
  else .ok { scriptText := fst, direction := fdir, referenceImage := fimg.getD "" }

/-! ## Veo provider model (`generateVeoVideo`, lines 406-687) -/

/-- One element of the `videos` / `predictions` arrays of a completed
operation. -/
structure VideoEntry where
  gcsUri : Option String := none
  bytesBase64Encoded : Option String := none
deriving DecidableEq

/-- Success payload of a completed operation (`pollData.response`). -/
structure PollResponseBody where
  videos : Option (List VideoEntry) := none
  predictions : Option (List VideoEntry) := none
deriving DecidableEq

/-- Outcome of one poll call: an HTTP-level failure, or a JSON reply with
`done`, optional `error` (modelled by its message) and optional `response`. -/
inductive PollOutcome where
  | httpError (status : Nat) (body : String)
  | reply (done : Bool) (error : Option String) (response : Option PollResponseBody)
deriving DecidableEq

/-- `instances[0].image` of the submit body. -/
structure VeoImage where
  bytesBase64Encoded : String
  mimeType : String
deriving DecidableEq

/-- One element of `instances` of the submit body. -/
structure VeoInstance where
  prompt : String
  image : VeoImage
deriving DecidableEq

/-- `parameters` of the submit body. -/
structure VeoParameters where
  aspectRatio : String
  resizeMode : String
  sampleCount : Nat
  durationSeconds : Nat
  resolution : String
  personGeneration : String
  seed : Nat
  negativePrompt : String
deriving DecidableEq

/-- The Veo submit request body. -/
structure VeoRequestBody where
  instances : List VeoInstance
  parameters : VeoParameters
deriving DecidableEq

/-- Outcome of the submit call: HTTP failure, or a JSON reply with optional
operation `name` and optional structured `error` (modelled by its message). -/
inductive VeoSubmitOutcome where
  | httpError (status : Nat) (body : String)
  | reply (name : Option String) (error : Option String)

/-- The remote Veo backend as seen through `fetch`: the submit response, the
sequence of poll responses (indexed by the number of polls already made), and
the GCS object fetch (`none` models a non-success status or a thrown fetch
error). -/
structure VeoBackend where
  submit : VeoRequestBody → VeoSubmitOutcome
  polls : Nat → PollOutcome
  fetchUri : String → Option String

/-- `data:video/mp4;base64,` ++ payload, as produced by every Veo return. -/
def mkVideoDataUri (b64 : String) : String := "data:video/mp4;base64," ++ b64

/-- The `predictions` fallback block of artifact extraction (lines 651-674)
followed by the terminal `No video data` failure (line 679). -/
def extractFromPredictions (fetchUri : String → Option String)
    (body : PollResponseBody) : Except VeoError String :=
  match body.predictions with
  | some (p :: _) =>
    let viaBytes : Option String :=
      match p.bytesBase64Encoded with
      | some b => if jsTruthy b then some (mkVideoDataUri b) else none
      | none => none
    match viaBytes with
    | some s => .ok s
    | none =>
      match p.gcsUri with
      | some u =>
        if jsTruthy u then
          match fetchUri u with
          | some b => .ok (mkVideoDataUri b)
          | none => .error .noArtifact
        else .error .noArtifact
      | none => .error .noArtifact
  | _ => .error .noArtifact

/-- Ordered artifact extraction from a completed operation's response body
(lines 617-679): `videos[0].gcsUri` (fetch; fall through on failure), then
`videos[0].bytesBase64Encoded`, then the `predictions` block. -/
def extractArtifact (fetchUri : String → Option String)
    (body : PollResponseBody) : Except VeoError String :=
  match body.videos with
  | some (v :: _) =>
    let viaGcs : Option String :=
      match v.gcsUri with
      | some u => if jsTruthy u then (fetchUri u).map mkVideoDataUri else none
      | none => none
    match viaGcs with
    | some s => .ok s
    | none =>
      match v.bytesBase64Encoded with
      | some b =>
        if jsTruthy b then .ok (mkVideoDataUri b)
        else extractFromPredictions fetchUri body
      | none => extractFromPredictions fetchUri body
  | _ => extractFromPredictions fetchUri body

/-- The polling loop (lines 575-686): `made` polls already issued, `fuel`
attempts remaining (`maxAttempts - made`, starting from 60).  Each tick issues
one poll; a transport failure is fatal, a done-with-error reply fails with the
remote message, a done reply is fed to the extractor, and exhausting the fuel
times out. -/
def pollVeoOperation (fetchUri : String → Option String)
    (polls : Nat → PollOutcome) : Nat → Nat → Except VeoError String
  | _, 0 => .error .timeout
  | made, fuel + 1 =>
    match polls made with
    | .httpError status body => .error (.pollHttpError status body)
    | .reply done err resp =>
      if done then
        match err with
        | some msg => .error (.operationError msg)
        | none => extractArtifact fetchUri (resp.getD {})
      else pollVeoOperation fetchUri polls (made + 1) fuel

/-- `styleModifiers` table (lines 454-458). -/
def styleModifiers : String → Option String
  | "UGC Talking" => some "Authentic user-generated content style, selfie camera angle, natural lighting, casual setting, direct eye contact with camera. NO text overlays, NO titles, NO captions, NO subtitles on screen - clean visuals only"
  | "Narrative Voiceover" => some "Cinematic storytelling style, smooth camera movements, establishing shots, documentary aesthetic, ambient lighting. NO text overlays, NO titles, NO captions, NO subtitles on screen - clean visuals only"
  | "Cinematic" => some "High-end commercial production, dramatic cinematic lighting, professional cinematography, premium aesthetic, shallow depth of field. NO text overlays, NO titles, NO captions, NO subtitles on screen - clean visuals only"
  | _ => none

/-- `seedMap` table (lines 464-475). -/
def seedMap : String → Option Nat
  | "american" => some 12345
  | "british" => some 23456
  | "australian" => some 34567
  | "indian" => some 45678
  | "south-african" => some 56789
  | "american-female" => some 67890
  | "british-female" => some 78901
  | "australian-female" => some 89012
  | "indian-female" => some 90123
  | "south-african-female" => some 11111
  | _ => none

/-- `voiceDescriptions` table (lines 479-490). -/
def voiceDescriptions : String → Option String
  | "american" => some "American accent"
  | "british" => some "British accent"
  | "australian" => some "Australian accent"
  | "indian" => some "Indian accent"
  | "south-african" => some "South African accent"
  | "american-female" => some "American female accent"
  | "british-female" => some "British female accent"
  | "australian-female" => some "Australian female accent"
  | "indian-female" => some "Indian female accent"
  | "south-african-female" => some "South African female accent"
  | _ => none

/-- `negativeVoiceMap` table (lines 494-500). -/
def negativeVoiceMap : String → Option String
  | "south-african" => some "American accent, British accent, Australian accent, Indian accent"
  | "american" => some "British accent, Australian accent, Indian accent, South African accent"
  | "british" => some "American accent, Australian accent, Indian accent, South African accent"
  | "australian" => some "American accent, British accent, Indian accent, South African accent"
  | "indian" => some "American accent, British accent, Australian accent, South African accent"
  | _ => none

/-- `const voiceSeed = seedMap[voiceAccent] || 12345` (line 476). -/
def veoVoiceSeed (voiceAccent : String) : Nat := (seedMap voiceAccent).getD 12345

/-- `const negativeVoice = negativeVoiceMap[voiceAccent.replace('-female', '')] || ''`
(line 501). -/
def veoNegativeVoice (voiceAccent : String) : String :=
  (negativeVoiceMap (jsReplaceFirst voiceAccent "-female" "")).getD ""

/-- The synthesized prediction prompt (line 505). -/
def buildVeoPrompt (voiceDescription scriptText direction styleModifier : String)
    (country : Option String) : String :=
  "The SAME character from the image speaks with a clear " ++ voiceDescription ++
  " in ALL segments. They say: \"" ++ scriptText ++ "\". " ++ direction ++ ". " ++
  styleModifier ++ ". Setting: " ++ jsOrD country "United States" ++
  ". 8 seconds duration. Vertical 9:16 aspect ratio video."

/-- `generateVeoVideo` after authentication (lines 441-687): parse the
reference image, reject payloads shorter than 100 characters, build the submit
body, submit, then poll up to 60 times and extract the artifact. -/
def generateVeoVideo (b : VeoBackend) (scriptText direction referenceImage : String)
    (country videoStyleOpt voiceAccentOpt : Option String) : Except VeoError String :=
  let videoStyle := videoStyleOpt.getD "UGC Talking"
  let voiceAccent := voiceAccentOpt.getD "american"
  let mimeType := imageMimeType referenceImage
  let base64Data := imageBase64Payload referenceImage
  if base64Data.length < 100 then .error .invalidImage
  else
    let styleModifier := (styleModifiers videoStyle).getD ((styleModifiers "UGC Talking").getD "")
    let requestBody : VeoRequestBody :=
      { instances := [{ prompt := buildVeoPrompt ((voiceDescriptions voiceAccent).getD "American accent")
                          scriptText direction styleModifier country,
                        image := { bytesBase64Encoded := base64Data, mimeType := mimeType } }],
        parameters := { aspectRatio := "9:16", resizeMode := "crop", sampleCount := 1,
                        durationSeconds := 8, resolution := "720p",
                        personGeneration := "allow_adult",
                        seed := veoVoiceSeed voiceAccent,
                        negativePrompt := veoNegativeVoice voiceAccent } }
    match b.submit requestBody with
    | .httpError status body => .error (.submitHttpError status body)
    | .reply name err =>
      match err with
      | some msg => .error (.submitApiError msg)
      | none =>
        match name with
        | some nm =>
          if jsTruthy nm then pollVeoOperation b.fetchUri b.polls 0 60
          else .error .noOperationName
        | none => .error .noOperationName

/-! ## Hedra and Kling provider models (lines 690-806) -/

/-- The hard-coded Hedra API key (line 691). -/
def hedraApiKey : String := "sk_hedra_UDZSVtynJwIvC6K3kltBWTxA6XHP2f91yy1rjhMtu2WZaznceU0gd-HRuH2A5jog"

/-- `generateTTS` placeholder (lines 755-761). -/
def generateTTS (text : String) (apiKey : String) (voiceAccent : String) : String :=
  "https://placeholder-audio-url.mp3"

/-- Outcome of one Hedra status poll. -/
inductive HedraPollOutcome where
  | httpError (status : Nat)
  | reply (status : String) (videoUrl : Option String)

/-- The remote Hedra backend: character creation, video creation (each either
an error message or the created resource id), and the status-poll sequence. -/
structure HedraBackend where
  createCharacter : Except String String
  createVideo : Except String String
  polls : Nat → HedraPollOutcome

/-- `pollHedraVideo` (lines 764-791): up to 30 polls at a fixed interval;
returns `video_url` on a completed status, fails on `failed`, times out
otherwise. -/
def pollHedraVideo (polls : Nat → HedraPollOutcome) : Nat → Nat → Except HedraError String
  | _, 0 => .error .timeout
  | i, fuel + 1 =>
    match polls i with
    | .httpError status => .error (.pollHttpError status)
    | .reply status url =>
      if status == "completed" && truthyOpt url then .ok (url.getD "")
      else if status == "failed" then .error .generationFailed
      else pollHedraVideo polls (i + 1) fuel

/-- `generateHedraVideo` (lines 690-752): create a character, synthesize the
narration audio (placeholder), create the video, then poll. -/
def generateHedraVideo (b : HedraBackend) (scriptText direction referenceImage : String)
    (country : Option String) (model : String) (voiceAccent : String) :
    Except HedraError String :=
  match b.createCharacter with
  | .error msg => .error (.initError msg)
  | .ok _characterId =>
    let _audioUrl := generateTTS scriptText hedraApiKey voiceAccent
    match b.createVideo with
    | .error msg => .error (.videoError msg)
    | .ok _videoId => pollHedraVideo b.polls 0 30

/-- `generateKlingVideo` (lines 794-806): fails fast without an API key, and is
otherwise an explicit unimplemented stub. -/
def generateKlingVideo (klingApiKey : Option String) : Except KlingError String :=
  match klingApiKey with
  | none => .error .notConfigured
  | some _ => .error .notYetImplemented

/-! ## The `/generate-video` handler (lines 331-403) -/

/-- Success payload returned to the caller (lines 385-391); the constant
`success: true` flag and the tracing `requestId` are omitted. -/
structure GenResponse where
  videoUrl : String
  videoBase64 : Option String
  provider : String
deriving DecidableEq

/-- `true` when the `provider` field selects the default Veo branch. -/
def isVeoProviderField (p : Option String) : Bool :=
  !(p == some "hedra" || p == some "kling")

/-- The provider dispatch (lines 371-378): strict-equality checks on the
`provider` field select Hedra or Kling, everything else takes the Veo path. -/
def dispatchProvider (vb : VeoBackend) (hb : HedraBackend) (klingApiKey : Option String)
    (req : RawRequest) (nr : NormalizedRequest) : Except GenError String :=
  if req.provider == some "hedra" then
    (generateHedraVideo hb nr.scriptText nr.direction nr.referenceImage req.country
      (jsOrD req.model "character-3") (req.voiceAccent.getD "american")).mapError .hedra
  else if req.provider == some "kling" then
    (generateKlingVideo klingApiKey).mapError .kling
  else
    (generateVeoVideo vb nr.scriptText nr.direction nr.referenceImage req.country
      req.videoStyle req.voiceAccent).mapError .veo

/-- Response assembly (lines 385-391): `videoBase64` is the part after the
first comma when the result starts with `data:`, else null. -/
def buildGenResponse (provider : Option String) (videoResult : String) : GenResponse :=
  { videoUrl := videoResult,
    videoBase64 :=
      if jsStartsWith videoResult "data:" then (jsSplit videoResult ",")[1]?
      else none,
    provider := jsOrD provider "veo" }

/-- The full handler: normalize, dispatch on `provider`, and assemble the
response. -/
def handleGenerateVideo (vb : VeoBackend) (hb : HedraBackend)
    (klingApiKey : Option String) (req : RawRequest) : Except GenError GenResponse :=
  match normalizeRequest req with
  | .error e => .error e
  | .ok nr =>
    match dispatchProvider vb hb klingApiKey req nr with
    | .error e => .error e
    | .ok videoResult => .ok (buildGenResponse req.provider videoResult)

deriving instance DecidableEq for Except

/-! ## Derived predicates and concrete fixtures -/

/-- A poll reply that reports the operation as not yet done. -/
def isNonDonePoll : PollOutcome → Bool
  | .reply false _ _ => true
  | _ => false

/-- `videos[0]` when the `videos` array is present and non-empty. -/
def firstVideo (body : PollResponseBody) : Option VideoEntry :=
  match body.videos with
  | some (v :: _) => some v
  | _ => none

/-- `predictions[0]` when the `predictions` array is present and non-empty. -/
def firstPrediction (body : PollResponseBody) : Option VideoEntry :=
  match body.predictions with
  | some (p :: _) => some p
  | _ => none

/-- Extraction rule 1 matches: `videos[0].gcsUri` is present and truthy. -/
def matchesVideosGcs (body : PollResponseBody) : Bool :=
  match firstVideo body with
  | some v => truthyOpt v.gcsUri
  | none => false

/-- Extraction rule 2 matches: `videos[0].bytesBase64Encoded` is present and truthy. -/
def matchesVideosBytes (body : PollResponseBody) : Bool :=
  match firstVideo body with
  | some v => truthyOpt v.bytesBase64Encoded
  | none => false

/-- Extraction rule 3 matches: `predictions[0].bytesBase64Encoded` is present and truthy. -/
def matchesPredictionsBytes (body : PollResponseBody) : Bool :=
  match firstPrediction body with
  | some p => truthyOpt p.bytesBase64Encoded
  | none => false

/-- Extraction rule 4 matches: `predictions[0].gcsUri` is present and truthy. -/
def matchesPredictionsGcs (body : PollResponseBody) : Bool :=
  match firstPrediction body with
  | some p => truthyOpt p.gcsUri
  | none => false

/-- Mock Veo backend whose first poll reports done with an inline base64 video. -/
def veoFirstPollDoneBackend : VeoBackend :=
  { submit := fun _ => .reply (some "projects/p/operations/op-1") none,
    polls := fun _ => .reply true none
      (some { videos := some [{ bytesBase64Encoded := some "Zm9v" }] }),
    fetchUri := fun _ => none }

/-- Mock Veo backend whose submit call fails at the HTTP level. -/
def veoSubmitFailBackend : VeoBackend :=
  { submit := fun _ => .httpError 500 "internal error",
    polls := fun _ => .reply false none none,
    fetchUri := fun _ => none }

/-- Mock Hedra backend that succeeds and completes on the first status poll
with a CDN video URL. -/
def hedraCompletingBackend : HedraBackend :=
  { createCharacter := .ok "char-1",
    createVideo := .ok "vid-1",
    polls := fun _ => .reply "completed" (some "https://cdn.example.com/v.mp4") }

/-- Poll sequence: 59 not-done replies, then a done-with-error reply. -/
def pollsThenError : Nat → PollOutcome := fun i =>
  if i < 59 then .reply false none none
  else .reply true (some "resource exhausted") none

/-- The spec's canonical end-to-end request (its base64 payload has 4 characters). -/
def canonicalRequestShortImage : RawRequest :=
  { scriptText := some "Hi", referenceImage := some "data:image/png;base64,AAAA",
    provider := some "veo" }

/-- A 100-character base64 payload. -/
def longImagePayload : String :=
  "AAAAAAAAAAAAAAAAAAAAAAAAAAAAAAAAAAAAAAAAAAAAAAAAAAAAAAAAAAAAAAAAAAAAAAAAAAAAAAAAAAAAAAAAAAAAAAAAAAAA"

/-- The canonical request with a reference image long enough to pass the
100-character payload check. -/
def canonicalRequestLongImage : RawRequest :=
  { scriptText := some "Hi",
    referenceImage := some ("data:image/png;base64," ++ longImagePayload),
    provider := some "veo" }

/-- A default-provider request whose base64 payload has 3 characters. -/
def shortImageRequestNoProvider : RawRequest :=
  { scriptText := some "Hello there",
    referenceImage := some "data:image/jpeg;base64,QUJD" }

/-! ## Helper lemmas about the JS string model -/

theorem string_eq_empty_of_data_nil {s : String} (h : s.data = []) : s = "" := by
  cases s with
  | mk data => cases h; rfl

theorem jsTruthy_eq_false_iff (s : String) : jsTruthy s = false ↔ s = "" := by
  constructor
  · intro h
    have hd : s.data = [] := by simpa [jsTruthy, List.isEmpty_iff] using h
    exact string_eq_empty_of_data_nil hd
  · intro h; subst h; rfl

theorem jsTruthy_eq_true_iff (s : String) : jsTruthy s = true ↔ s ≠ "" := by
  constructor
  · intro h he
    rw [he] at h
    exact absurd h (by decide)
  · intro h
    cases ht : jsTruthy s
    · exact absurd ((jsTruthy_eq_false_iff s).mp ht) h
    · rfl

theorem splitGo_fuel (sep : List Char) :
    ∀ f1 f2 l, l.length ≤ f1 → l.length ≤ f2 → splitGo sep f1 l = splitGo sep f2 l := by
  intro f1
  induction f1 with
  | zero =>
    intro f2 l h1 _
    have : l = [] := List.length_eq_zero.mp (Nat.le_zero.mp h1)
    subst this
    simp [splitGo]
  | succ n ih =>
    intro f2 l h1 h2
    match l with
    | [] => simp [splitGo]
    | c :: cs =>
      match f2 with
      | 0 => exact absurd h2 (by simp)
      | m + 1 =>
        simp only [splitGo]
        have hcs : cs.length ≤ n := by
          simp only [List.length_cons] at h1; omega
        have hcs2 : cs.length ≤ m := by
          simp only [List.length_cons] at h2; omega
        split
        · have hd : (cs.drop (sep.length - 1)).length ≤ cs.length := by
            rw [List.length_drop]; omega
          rw [ih m (cs.drop (sep.length - 1)) (le_trans hd hcs) (le_trans hd hcs2)]
        · rw [ih m cs hcs hcs2]

theorem splitGo_eq_jsSplitList (sep : List Char) (fuel : Nat) (l : List Char)
    (h : l.length ≤ fuel) : splitGo sep fuel l = jsSplitList sep l :=
  splitGo_fuel sep fuel l.length l h le_rfl

theorem jsSplitList_cons_nomatch (sep : List Char) (c : Char) (cs : List Char)
    (h : sep.isPrefixOf (c :: cs) = false) :
    jsSplitList sep (c :: cs) =
      match jsSplitList sep cs with
      | [] => [[c]]
      | hd :: tl => (c :: hd) :: tl := by
  show splitGo sep (cs.length + 1) (c :: cs) = _
  simp only [splitGo, h]
  rfl

theorem jsSplitList_cons_match (sep : List Char) (c : Char) (cs : List Char)
    (h : sep.isPrefixOf (c :: cs) = true) :
    jsSplitList sep (c :: cs) = [] :: jsSplitList sep (cs.drop (sep.length - 1)) := by
  show splitGo sep (cs.length + 1) (c :: cs) = _
  simp only [splitGo, h]
  rw [splitGo_eq_jsSplitList sep cs.length _ (by rw [List.length_drop]; omega)]
  simp

theorem occursAt_zero (sep l : List Char) : occursAt sep l 0 = sep.isPrefixOf l := by
  simp [occursAt]

theorem occursAt_cons (sep : List Char) (c : Char) (l : List Char) (i : Nat) :
    occursAt sep (c :: l) (i + 1) = occursAt sep l i := by
  simp [occursAt]

theorem occursAt_shift (sep pre t : List Char) (j : Nat) :
    occursAt sep (pre ++ t) (pre.length + j) = occursAt sep t j := by
  simp only [occursAt, List.drop_append_eq_append_drop]
  rw [List.drop_eq_nil_of_le (by omega : pre.length ≤ pre.length + j)]
  simp

theorem occursAt_lt_length {sep l : List Char} {i : Nat} (hsep : sep ≠ [])
    (h : occursAt sep l i = true) : i < l.length := by
  by_contra hge
  have hnil : l.drop i = [] := List.drop_eq_nil_of_le (by omega)
  match sep, hsep with
  | s0 :: sr, _ => simp [occursAt, hnil] at h

theorem jsSplitList_of_no_occurrence (sep : List Char) :
    ∀ l, (∀ i, occursAt sep l i = false) → jsSplitList sep l = [l] := by
  intro l
  induction l with
  | nil => intro _; simp [jsSplitList, splitGo]
  | cons c cs ih =>
    intro h
    have h0 : sep.isPrefixOf (c :: cs) = false := by
      rw [← occursAt_zero]; exact h 0
    rw [jsSplitList_cons_nomatch sep c cs h0]
    have hrec : jsSplitList sep cs = [cs] :=
      ih (fun i => by rw [← occursAt_cons sep c cs i]; exact h (i + 1))
    rw [hrec]

theorem jsSplitList_first_cut (sep : List Char) (hsep : sep ≠ []) :
    ∀ a t, (∀ i, i < a.length → occursAt sep (a ++ (sep ++ t)) i = false) →
    jsSplitList sep (a ++ (sep ++ t)) = a :: jsSplitList sep t := by
  intro a
  induction a with
  | nil =>
    intro t _
    match sep, hsep with
    | s0 :: sr, _ =>
      have hpre : (s0 :: sr).isPrefixOf (s0 :: (sr ++ t)) = true := by
        apply List.isPrefixOf_iff_prefix.mpr
        exact List.prefix_append (s0 :: sr) t
      have := jsSplitList_cons_match (s0 :: sr) s0 (sr ++ t) hpre
      simp only [List.nil_append, List.cons_append] at this ⊢
      rw [this]
      have hdrop : (sr ++ t).drop ((s0 :: sr).length - 1) = t := by
        simp [List.drop_left]
      rw [hdrop]
  | cons c a' ih =>
    intro t h
    have h0 : sep.isPrefixOf (c :: (a' ++ (sep ++ t))) = false := by
      rw [← occursAt_zero]
      exact h 0 (by simp)
    have hstep := jsSplitList_cons_nomatch sep c (a' ++ (sep ++ t)) h0
    simp only [List.cons_append] at hstep ⊢
    rw [hstep]
    have hrec : jsSplitList sep (a' ++ (sep ++ t)) = a' :: jsSplitList sep t :=
      ih t (fun i hi => by
        rw [← occursAt_cons sep c (a' ++ (sep ++ t)) i]
        have : i + 1 < (c :: a').length := by simp only [List.length_cons]; omega
        simpa using h (i + 1) this)
    rw [hrec]

theorem two_le_length_of_mem_ne {α : Type} {a b : α} {l : List α}
    (ha : a ∈ l) (hb : b ∈ l) (hne : a ≠ b) : 2 ≤ l.length := by
  match l with
  | [] => cases ha
  | [x] =>
    simp only [List.mem_singleton] at ha hb
    exact absurd (ha.trans hb.symm) hne
  | x :: y :: t => simp only [List.length_cons]; omega

theorem occursAt_mem_filter {sep l : List Char} {i : Nat} (hsep : sep ≠ [])
    (h : occursAt sep l i = true) :
    i ∈ (List.range (l.length + 1)).filter (fun j => occursAt sep l j) := by
  rw [List.mem_filter]
  exact ⟨List.mem_range.mpr (by have := occursAt_lt_length hsep h; omega), h⟩

theorem occursAt_false_of_countOcc_zero {sep l : List Char} (hsep : sep ≠ [])
    (hc : countOcc sep l = 0) : ∀ i, occursAt sep l i = false := by
  intro i
  cases ho : occursAt sep l i
  · rfl
  · exfalso
    have hmem := occursAt_mem_filter hsep ho
    have hpos : 0 < countOcc sep l := by
      unfold countOcc
      exact List.length_pos.mpr (fun hnil => by rw [hnil] at hmem; cases hmem)
    omega

theorem occursAt_unique {sep l : List Char} {k : Nat} (hsep : sep ≠ [])
    (hc : countOcc sep l = 1) (hk : occursAt sep l k = true) :
    ∀ j, j ≠ k → occursAt sep l j = false := by
  intro j hne
  cases ho : occursAt sep l j
  · rfl
  · exfalso
    have h2 : 2 ≤ countOcc sep l :=
      two_le_length_of_mem_ne (occursAt_mem_filter hsep ho) (occursAt_mem_filter hsep hk) hne
    omega

theorem string_append_assoc (a b c : String) : (a ++ b) ++ c = a ++ (b ++ c) := by
  apply String.ext
  show (a.data ++ b.data) ++ c.data = a.data ++ (b.data ++ c.data)
  exact List.append_assoc a.data b.data c.data

theorem occursAt_at_junction (sep a t : List Char) :
    occursAt sep (a ++ (sep ++ t)) a.length = true := by
  have h := occursAt_shift sep a (sep ++ t) 0
  rw [Nat.add_zero] at h
  rw [h, occursAt_zero]
  exact List.isPrefixOf_iff_prefix.mpr (List.prefix_append sep t)

theorem cut_facts_of_countOcc_one (m : String) (hm : m.data ≠ []) (a t : String)
    (hc : countOcc m.data (a.data ++ (m.data ++ t.data)) = 1) :
    (∀ i, i < a.data.length → occursAt m.data (a.data ++ (m.data ++ t.data)) i = false) ∧
    (∀ j, occursAt m.data t.data j = false) := by
  have hk : occursAt m.data (a.data ++ (m.data ++ t.data)) a.data.length = true :=
    occursAt_at_junction m.data a.data t.data
  have hu := occursAt_unique hm hc hk
  constructor
  · exact fun i hi => hu i (by omega)
  · intro j
    have hlift : occursAt m.data (a.data ++ (m.data ++ t.data))
        (a.data.length + (m.data.length + j)) = occursAt m.data t.data j := by
      rw [occursAt_shift, occursAt_shift]
    rw [← hlift]
    apply hu
    have : 0 < m.data.length := List.length_pos.mpr hm
    omega

theorem jsSplit_cut (m : String) (hm : m.data ≠ []) (a t : String)
    (hbefore : ∀ i, i < a.data.length →
      occursAt m.data (a.data ++ (m.data ++ t.data)) i = false)
    (htail : ∀ j, occursAt m.data t.data j = false) :
    jsSplit (a ++ m ++ t) m = [a, t] := by
  unfold jsSplit
  rw [if_neg hm]
  have hdata : (a ++ m ++ t).data = a.data ++ (m.data ++ t.data) := by
    show (a.data ++ m.data) ++ t.data = _
    rw [List.append_assoc]
  rw [hdata]
  rw [jsSplitList_first_cut m.data hm a.data t.data hbefore]
  rw [jsSplitList_of_no_occurrence m.data t.data htail]
  rfl

theorem jsSplit_single (m : String) (hm : m.data ≠ []) (p : String)
    (h : ∀ i, occursAt m.data p.data i = false) : jsSplit p m = [p] := by
  unfold jsSplit
  rw [if_neg hm]
  rw [jsSplitList_of_no_occurrence m.data p.data h]
  rfl

theorem jsSplit_of_countOcc_one (m : String) (hm : m.data ≠ []) (a t : String)
    (hc : countOcc m.data (a.data ++ (m.data ++ t.data)) = 1) :
    jsSplit (a ++ m ++ t) m = [a, t] := by
  obtain ⟨hb, ht⟩ := cut_facts_of_countOcc_one m hm a t hc
  exact jsSplit_cut m hm a t hb ht

theorem jsSplit_of_countOcc_zero (m : String) (hm : m.data ≠ []) (p : String)
    (hc : countOcc m.data p.data = 0) : jsSplit p m = [p] :=
  jsSplit_single m hm p (occursAt_false_of_countOcc_zero hm hc)

theorem finalScriptText_legacy_eval (p v : String) (hp : jsTruthy p = true)
    (hv : ((jsSplit p scriptMarker)[1]?).map
      (fun seg => ((jsSplit seg styleMarker)[0]?).getD "") = some v) :
    finalScriptText none (some p) = if jsTruthy v then v else p := by
  have he : jsTruthy "" = false := by decide
  cases hvt : jsTruthy v
  · have hv0 : v = "" := (jsTruthy_eq_false_iff v).mp hvt
    subst hv0
    simp [finalScriptText, hp, hv, jsOr, truthyOpt, he]
  · simp [finalScriptText, hp, hv, jsOr, truthyOpt, hvt]

theorem finalScriptText_legacy_eval_none (p : String)
    (hv : (jsSplit p scriptMarker)[1]? = none) : finalScriptText none (some p) = p := by
  cases hp : jsTruthy p
  · have h0 : p = "" := (jsTruthy_eq_false_iff p).mp hp
    subst h0
    decide
  · simp [finalScriptText, hp, hv, jsOr, truthyOpt]

theorem finalDirection_legacy (p : String) :
    finalDirection none (some p) = ((jsSplit p scriptMarker)[0]?).getD "" := by
  cases hp : jsTruthy p
  · have h0 : p = "" := (jsTruthy_eq_false_iff p).mp hp
    subst h0
    decide
  · cases hd : jsTruthy (((jsSplit p scriptMarker)[0]?).getD "")
    · have h0 : ((jsSplit p scriptMarker)[0]?).getD "" = "" := (jsTruthy_eq_false_iff _).mp hd
      simp [finalDirection, hp, jsOr, truthyOpt, hd, h0]
    · simp [finalDirection, hp, jsOr, truthyOpt, hd]

theorem finalScriptText_both_markers (a x b : String)
    (hc1 : countOcc scriptMarker.data (a ++ scriptMarker ++ x ++ styleMarker ++ b).data = 1)
    (hc2 : countOcc styleMarker.data (a ++ scriptMarker ++ x ++ styleMarker ++ b).data = 1) :
    finalScriptText none (some (a ++ scriptMarker ++ x ++ styleMarker ++ b)) =
      if jsTruthy x then x else a ++ scriptMarker ++ x ++ styleMarker ++ b := by
  have hm1 : scriptMarker.data ≠ [] := by decide
  have hm2 : styleMarker.data ≠ [] := by decide
  have hpeq : a ++ scriptMarker ++ x ++ styleMarker ++ b =
      a ++ scriptMarker ++ (x ++ styleMarker ++ b) := by
    simp [string_append_assoc]
  rw [hpeq] at hc1 hc2 ⊢
  have hd : (a ++ scriptMarker ++ (x ++ styleMarker ++ b)).data =
      a.data ++ (scriptMarker.data ++ (x ++ styleMarker ++ b).data) := by
    show (a.data ++ scriptMarker.data) ++ (x ++ styleMarker ++ b).data = _
    rw [List.append_assoc]
  rw [hd] at hc1 hc2
  have hsplit1 : jsSplit (a ++ scriptMarker ++ (x ++ styleMarker ++ b)) scriptMarker =
      [a, x ++ styleMarker ++ b] :=
    jsSplit_of_countOcc_one scriptMarker hm1 a (x ++ styleMarker ++ b) hc1
  have hsegd : (x ++ styleMarker ++ b).data = x.data ++ (styleMarker.data ++ b.data) := by
    show (x.data ++ styleMarker.data) ++ b.data = _
    rw [List.append_assoc]
  rw [hsegd] at hc2
  have hk2 : occursAt styleMarker.data
      (a.data ++ (scriptMarker.data ++ (x.data ++ (styleMarker.data ++ b.data))))
      (a.data.length + (scriptMarker.data.length + x.data.length)) = true := by
    rw [occursAt_shift, occursAt_shift]
    exact occursAt_at_junction styleMarker.data x.data b.data
  have hu2 := occursAt_unique hm2 hc2 hk2
  have hbefore2 : ∀ i, i < x.data.length →
      occursAt styleMarker.data (x.data ++ (styleMarker.data ++ b.data)) i = false := by
    intro i hi
    have hlift : occursAt styleMarker.data
        (a.data ++ (scriptMarker.data ++ (x.data ++ (styleMarker.data ++ b.data))))
        (a.data.length + (scriptMarker.data.length + i)) =
        occursAt styleMarker.data (x.data ++ (styleMarker.data ++ b.data)) i := by
      rw [occursAt_shift, occursAt_shift]
    rw [← hlift]
    exact hu2 _ (by omega)
  have htail2 : ∀ j, occursAt styleMarker.data b.data j = false := by
    intro j
    have hlift : occursAt styleMarker.data
        (a.data ++ (scriptMarker.data ++ (x.data ++ (styleMarker.data ++ b.data))))
        (a.data.length +
          (scriptMarker.data.length + (x.data.length + (styleMarker.data.length + j)))) =
        occursAt styleMarker.data b.data j := by
      rw [occursAt_shift, occursAt_shift, occursAt_shift, occursAt_shift]
    rw [← hlift]
    apply hu2
    have hlen : (0:Nat) < styleMarker.data.length := by decide
    omega
  have hsplit2 : jsSplit (x ++ styleMarker ++ b) styleMarker = [x, b] := by
    apply jsSplit_cut styleMarker hm2 x b hbefore2 htail2
  have hp : jsTruthy (a ++ scriptMarker ++ (x ++ styleMarker ++ b)) = true := by
    rw [jsTruthy_eq_true_iff]
    intro he
    have hnil : (a ++ scriptMarker ++ (x ++ styleMarker ++ b)).data = [] := by rw [he]
    rw [hd] at hnil
    rcases List.append_eq_nil.mp hnil with ⟨-, h2⟩
    rcases List.append_eq_nil.mp h2 with ⟨h3, -⟩
    exact hm1 h3
  have hv : ((jsSplit (a ++ scriptMarker ++ (x ++ styleMarker ++ b)) scriptMarker)[1]?).map
      (fun seg => ((jsSplit seg styleMarker)[0]?).getD "") = some x := by
    rw [hsplit1]
    show some (((jsSplit (x ++ styleMarker ++ b) styleMarker)[0]?).getD "") = some x
    rw [hsplit2]
    simp
  exact finalScriptText_legacy_eval _ x hp hv

/-- Claim C1 (amended): for legacy-only requests, when the prompt decomposes
around single occurrences of the two markers with a non-empty text between
them, `finalScriptText` recovers the text strictly between the markers; when
only the first marker occurs (once) with non-empty text after it,
`finalScriptText` recovers the text after the first marker (not the raw
prompt); when the first marker is absent, or the extracted text is empty,
`finalScriptText` is the raw prompt. -/
theorem legacy_scriptText_recovery :
    (∀ a x b : String,
      countOcc scriptMarker.data (a ++ scriptMarker ++ x ++ styleMarker ++ b).data = 1 →
      countOcc styleMarker.data (a ++ scriptMarker ++ x ++ styleMarker ++ b).data = 1 →
      x ≠ "" →
      finalScriptText none (some (a ++ scriptMarker ++ x ++ styleMarker ++ b)) = x) ∧
    (∀ a x : String,
      countOcc scriptMarker.data (a ++ scriptMarker ++ x).data = 1 →
      countOcc styleMarker.data (a ++ scriptMarker ++ x).data = 0 →
      x ≠ "" →
      finalScriptText none (some (a ++ scriptMarker ++ x)) = x) ∧
    (∀ p : String, countOcc scriptMarker.data p.data = 0 →
      finalScriptText none (some p) = p) ∧
    (∀ a b : String,
      countOcc scriptMarker.data (a ++ scriptMarker ++ styleMarker ++ b).data = 1 →
      countOcc styleMarker.data (a ++ scriptMarker ++ styleMarker ++ b).data = 1 →
      finalScriptText none (some (a ++ scriptMarker ++ styleMarker ++ b)) =
        a ++ scriptMarker ++ styleMarker ++ b) := by
  refine ⟨?_, ?_, ?_, ?_⟩
  · intro a x b hc1 hc2 hx
    rw [finalScriptText_both_markers a x b hc1 hc2]
    rw [if_pos ((jsTruthy_eq_true_iff x).mpr hx)]
  · intro a x hc1 hc2 hx
    have hm1 : scriptMarker.data ≠ [] := by decide
    have hm2 : styleMarker.data ≠ [] := by decide
    have hd : (a ++ scriptMarker ++ x).data = a.data ++ (scriptMarker.data ++ x.data) := by
      show (a.data ++ scriptMarker.data) ++ x.data = _
      rw [List.append_assoc]
    rw [hd] at hc1 hc2
    have hsplit1 : jsSplit (a ++ scriptMarker ++ x) scriptMarker = [a, x] :=
      jsSplit_of_countOcc_one scriptMarker hm1 a x hc1
    have hnone2 := occursAt_false_of_countOcc_zero hm2 hc2
    have hx2 : ∀ i, occursAt styleMarker.data x.data i = false := by
      intro i
      have hlift : occursAt styleMarker.data (a.data ++ (scriptMarker.data ++ x.data))
          (a.data.length + (scriptMarker.data.length + i)) =
          occursAt styleMarker.data x.data i := by
        rw [occursAt_shift, occursAt_shift]
      rw [← hlift]
      exact hnone2 _
    have hsplit2 : jsSplit x styleMarker = [x] := jsSplit_single styleMarker hm2 x hx2
    have hp : jsTruthy (a ++ scriptMarker ++ x) = true := by
      rw [jsTruthy_eq_true_iff]
      intro he
      have hnil : (a ++ scriptMarker ++ x).data = [] := by rw [he]
      rw [hd] at hnil
      rcases List.append_eq_nil.mp hnil with ⟨-, h2⟩
      rcases List.append_eq_nil.mp h2 with ⟨h3, -⟩
      exact hm1 h3
    have hv : ((jsSplit (a ++ scriptMarker ++ x) scriptMarker)[1]?).map
        (fun seg => ((jsSplit seg styleMarker)[0]?).getD "") = some x := by
      rw [hsplit1]
      show some (((jsSplit x styleMarker)[0]?).getD "") = some x
      rw [hsplit2]
      simp
    rw [finalScriptText_legacy_eval _ x hp hv]
    rw [if_pos ((jsTruthy_eq_true_iff x).mpr hx)]
  · intro p hc
    have hm1 : scriptMarker.data ≠ [] := by decide
    have hsplit : jsSplit p scriptMarker = [p] := jsSplit_of_countOcc_zero scriptMarker hm1 p hc
    apply finalScriptText_legacy_eval_none
    rw [hsplit]
    simp
  · intro a b hc1 hc2
    have h0 : a ++ scriptMarker ++ "" = a ++ scriptMarker := by
      apply String.ext
      show (a.data ++ scriptMarker.data) ++ [] = a.data ++ scriptMarker.data
      simp
    have hxeq : a ++ scriptMarker ++ styleMarker ++ b =
        a ++ scriptMarker ++ "" ++ styleMarker ++ b := by
      rw [h0]
    rw [hxeq] at hc1 hc2 ⊢
    rw [finalScriptText_both_markers a "" b hc1 hc2]
    rw [if_neg (by decide)]

/-- Claim C1 witness: a concrete legacy prompt with both markers occurring
once, evaluated through the amended theorem. -/
theorem legacy_scriptText_recovery_witness :
    finalScriptText none
      (some ("Be casual" ++ scriptMarker ++ "hello there" ++ styleMarker ++ " energetic")) =
      "hello there" :=
  legacy_scriptText_recovery.1 "Be casual" "hello there" " energetic"
    (by decide) (by decide) (by decide)

/-- Claim C1 counterexample: with the first marker present and the second
absent, normalization returns the text after the first marker, not the raw
prompt as the claim requires. -/
theorem legacy_scriptText_claim_counterexample :
    finalScriptText none (some "dir. Script: \"hello") = "hello" ∧
    finalScriptText none (some "dir. Script: \"hello") ≠ "dir. Script: \"hello" := by
  decide

/-- Claim C2 (amended): for legacy-only requests, the resolved direction is
the substring of the prompt preceding the (single) occurrence of the
`. Script: "` marker; when the marker is absent the resolved direction is the
entire prompt (hence empty only when the prompt itself is empty). -/
theorem legacy_direction_recovery :
    (∀ a x : String, countOcc scriptMarker.data (a ++ scriptMarker ++ x).data = 1 →
      finalDirection none (some (a ++ scriptMarker ++ x)) = a) ∧
    (∀ p : String, countOcc scriptMarker.data p.data = 0 →
      finalDirection none (some p) = p) := by
  constructor
  · intro a x hc
    have hm1 : scriptMarker.data ≠ [] := by decide
    have hd : (a ++ scriptMarker ++ x).data = a.data ++ (scriptMarker.data ++ x.data) := by
      show (a.data ++ scriptMarker.data) ++ x.data = _
      rw [List.append_assoc]
    rw [hd] at hc
    have hsplit : jsSplit (a ++ scriptMarker ++ x) scriptMarker = [a, x] :=
      jsSplit_of_countOcc_one scriptMarker hm1 a x hc
    rw [finalDirection_legacy, hsplit]
    simp
  · intro p hc
    have hm1 : scriptMarker.data ≠ [] := by decide
    rw [finalDirection_legacy, jsSplit_of_countOcc_zero scriptMarker hm1 p hc]
    simp

/-- Claim C2 witness: a concrete legacy prompt with the marker occurring once,
evaluated through the amended theorem. -/
theorem legacy_direction_recovery_witness :
    finalDirection none (some ("Look at camera" ++ scriptMarker ++ "hi")) = "Look at camera" :=
  legacy_direction_recovery.1 "Look at camera" "hi" (by decide)

/-- Claim C2 counterexample: with the markers absent from the prompt, the
resolved direction is the entire prompt, not the empty string the claim
requires. -/
theorem legacy_direction_claim_counterexample :
    finalDirection none (some "just a plain prompt") = "just a plain prompt" ∧
    finalDirection none (some "just a plain prompt") ≠ "" := by
  decide

/-- Claim C3: normalization fails with a `MissingField`-class error when both
`scriptText` and `prompt` are absent, and independently when both
`referenceImage` and `imageUrl` are absent; and these are the only two
required inputs — whenever the resolved script text is truthy and the resolved
reference image is truthy, normalization succeeds, all other fields being
arbitrary (in particular possibly absent). -/
theorem normalization_missing_fields :
    (∀ req : RawRequest, req.scriptText = none → req.prompt = none →
      normalizeRequest req = .error .missingScript ∧
      GenError.isMissingField .missingScript = true) ∧
    (∀ req : RawRequest, req.referenceImage = none → req.imageUrl = none →
      ∃ e, normalizeRequest req = .error e ∧ e.isMissingField = true) ∧
    (∀ req : RawRequest, jsTruthy (finalScriptText req.scriptText req.prompt) = true →
      truthyOpt (jsOr req.referenceImage req.imageUrl) = true →
      normalizeRequest req =
        .ok { scriptText := finalScriptText req.scriptText req.prompt,
              direction := finalDirection req.direction req.prompt,
              referenceImage := (jsOr req.referenceImage req.imageUrl).getD "" }) := by
  refine ⟨?_, ?_, ?_⟩
  · intro req hs hp
    refine ⟨?_, rfl⟩
    have hfst : finalScriptText req.scriptText req.prompt = "" := by
      rw [hs, hp]
      decide
    have he : jsTruthy "" = false := by decide
    simp [normalizeRequest, hfst, he]
  · intro req hr hi
    have himg : jsOr req.referenceImage req.imageUrl = none := by
      rw [hr, hi]
      rfl
    by_cases hft : jsTruthy (finalScriptText req.scriptText req.prompt) = true
    · exact ⟨.missingImage, by simp [normalizeRequest, hft, himg, truthyOpt], rfl⟩
    · have hft' : jsTruthy (finalScriptText req.scriptText req.prompt) = false := by
        cases h : jsTruthy (finalScriptText req.scriptText req.prompt)
        · rfl
        · exact absurd h hft
      exact ⟨.missingScript, by simp [normalizeRequest, hft'], rfl⟩
  · intro req hs hi
    simp [normalizeRequest, hs, hi]

/-- Claim C3 witness: the all-absent request fails on the script check, a
`MissingField`-class error. -/
theorem normalization_missing_fields_witness :
    normalizeRequest {} = .error .missingScript ∧
    GenError.isMissingField .missingScript = true :=
  normalization_missing_fields.1 {} rfl rfl

theorem pollVeo_timeout_of_nonDone (fetchUri : String → Option String)
    (polls : Nat → PollOutcome) :
    ∀ fuel made, (∀ i, made ≤ i → i < made + fuel → isNonDonePoll (polls i) = true) →
    pollVeoOperation fetchUri polls made fuel = .error .timeout := by
  intro fuel
  induction fuel with
  | zero => intro made _; rfl
  | succ n ih =>
    intro made h
    have hm := h made le_rfl (by omega)
    match hpm : polls made with
    | .httpError st b => rw [hpm] at hm; simp [isNonDonePoll] at hm
    | .reply true e r => rw [hpm] at hm; simp [isNonDonePoll] at hm
    | .reply false e r =>
      have hrec := ih (made + 1) (fun i h1 h2 => h i (by omega) (by omega))
      simpa [pollVeoOperation, hpm] using hrec

theorem pollVeo_frame (fetchUri : String → Option String)
    (polls polls' : Nat → PollOutcome) :
    ∀ fuel made, (∀ i, made ≤ i → i < made + fuel → polls' i = polls i) →
    pollVeoOperation fetchUri polls' made fuel = pollVeoOperation fetchUri polls made fuel := by
  intro fuel
  induction fuel with
  | zero => intro made _; rfl
  | succ n ih =>
    intro made h
    have hm : polls' made = polls made := h made le_rfl (by omega)
    have hrec := ih (made + 1) (fun i h1 h2 => h i (by omega) (by omega))
    match hpm : polls made with
    | .httpError st b => simp [pollVeoOperation, hm, hpm]
    | .reply d e r =>
      cases d
      · simpa [pollVeoOperation, hm, hpm] using hrec
      · simp [pollVeoOperation, hm, hpm]

theorem pollVeo_done_error (fetchUri : String → Option String)
    (polls : Nat → PollOutcome) (msg : String) (resp : Option PollResponseBody) :
    ∀ k made fuel, k < fuel →
    (∀ i, made ≤ i → i < made + k → isNonDonePoll (polls i) = true) →
    polls (made + k) = .reply true (some msg) resp →
    pollVeoOperation fetchUri polls made fuel = .error (.operationError msg) := by
  intro k
  induction k with
  | zero =>
    intro made fuel hf h hdone
    match fuel, hf with
    | n + 1, _ =>
      rw [Nat.add_zero] at hdone
      simp [pollVeoOperation, hdone]
  | succ kk ih =>
    intro made fuel hf h hdone
    match fuel, hf with
    | n + 1, _ =>
      have hm := h made le_rfl (by omega)
      match hpm : polls made with
      | .httpError st b => rw [hpm] at hm; simp [isNonDonePoll] at hm
      | .reply true e r => rw [hpm] at hm; simp [isNonDonePoll] at hm
      | .reply false e r =>
        have hd' : polls (made + 1 + kk) = .reply true (some msg) resp := by
          rw [show made + 1 + kk = made + (kk + 1) by omega]
          exact hdone
        have hrec := ih (made + 1) n (by omega)
          (fun i h1 h2 => h i (by omega) (by omega)) hd'
        simpa [pollVeoOperation, hpm] using hrec

/-- Claim C5: against any sequence of 60 consecutive not-done poll replies the
Veo polling loop terminates with `ProviderTimeout`, and its outcome depends
only on the first 60 poll replies — no 61st poll is ever consulted. -/
theorem veo_polling_timeout_after_60 (fetchUri : String → Option String)
    (polls : Nat → PollOutcome)
    (h : ∀ i, i < 60 → isNonDonePoll (polls i) = true) :
    pollVeoOperation fetchUri polls 0 60 = .error .timeout ∧
    ∀ polls' : Nat → PollOutcome, (∀ i, i < 60 → polls' i = polls i) →
      pollVeoOperation fetchUri polls' 0 60 = pollVeoOperation fetchUri polls 0 60 := by
  constructor
  · exact pollVeo_timeout_of_nonDone fetchUri polls 60 0 (fun i _ h2 => h i (by omega))
  · intro polls' h'
    exact pollVeo_frame fetchUri polls polls' 60 0 (fun i _ h2 => h' i (by omega))

/-- Claim C5 witness: the constant not-done poll sequence times out. -/
theorem veo_polling_timeout_after_60_witness :
    pollVeoOperation (fun _ => none) (fun _ => .reply false none none) 0 60 =
      .error .timeout :=
  (veo_polling_timeout_after_60 (fun _ => none) (fun _ => .reply false none none)
    (fun _ _ => rfl)).1

/-- Claim C6: against 59 not-done poll replies followed by a done-with-error
reply, the Veo polling loop terminates with `ProviderOperationError` carrying
the remote message, not with `ProviderTimeout`. -/
theorem veo_polling_done_error_at_attempt_60 (fetchUri : String → Option String)
    (polls : Nat → PollOutcome) (msg : String) (resp : Option PollResponseBody)
    (h : ∀ i, i < 59 → isNonDonePoll (polls i) = true)
    (h59 : polls 59 = .reply true (some msg) resp) :
    pollVeoOperation fetchUri polls 0 60 = .error (.operationError msg) ∧
    pollVeoOperation fetchUri polls 0 60 ≠ .error .timeout := by
  have hmain := pollVeo_done_error fetchUri polls msg resp 59 0 60 (by omega)
    (fun i _ h2 => h i (by omega)) (by simpa using h59)
  refine ⟨hmain, ?_⟩
  rw [hmain]
  simp

/-- Claim C6 witness: the concrete 59-not-done-then-error sequence yields the
remote operation error. -/
theorem veo_polling_done_error_witness :
    pollVeoOperation (fun _ => none) pollsThenError 0 60 =
      .error (.operationError "resource exhausted") :=
  (veo_polling_done_error_at_attempt_60 (fun _ => none) pollsThenError
    "resource exhausted" none
    (fun i hi => by simp [pollsThenError, hi, isNonDonePoll])
    (by simp [pollsThenError])).1

/-- Claim C7 (amended): accent `"south-african"` yields seed 56789 with the
negative prompt excluding the other four primary accents; an unmapped accent
such as `"unknown-value"` yields the default seed 12345 and an empty negative
prompt; but a female accent variant yields the negative prompt of its base
accent (the `-female` suffix is stripped before the lookup), not the empty
negative prompt. -/
theorem voice_lookup_table :
    veoVoiceSeed "south-african" = 56789 ∧
    veoNegativeVoice "south-african" =
      "American accent, British accent, Australian accent, Indian accent" ∧
    veoVoiceSeed "unknown-value" = 12345 ∧
    veoNegativeVoice "unknown-value" = "" ∧
    veoNegativeVoice "american-female" = veoNegativeVoice "american" ∧
    veoNegativeVoice "british-female" = veoNegativeVoice "british" ∧
    veoNegativeVoice "australian-female" = veoNegativeVoice "australian" ∧
    veoNegativeVoice "indian-female" = veoNegativeVoice "indian" ∧
    veoNegativeVoice "south-african-female" = veoNegativeVoice "south-african" := by
  decide

/-- Claim C7 counterexample: the female accent variant `"american-female"`
yields a non-empty negative prompt (its base accent's exclusion list), where
the claim requires the empty negative prompt. -/
theorem voice_lookup_claim_counterexample :
    veoNegativeVoice "american-female" =
      "British accent, Australian accent, Indian accent, South African accent" ∧
    veoNegativeVoice "american-female" ≠ "" := by
  decide

theorem extractArtifact_to_predictions (f : String → Option String) (body : PollResponseBody)
    (hg1 : matchesVideosGcs body = false) (hg2 : matchesVideosBytes body = false) :
    extractArtifact f body = extractFromPredictions f body := by
  match hbv : body.videos with
  | none => simp [extractArtifact, hbv]
  | some [] => simp [extractArtifact, hbv]
  | some (v :: vr) =>
    have h1 : truthyOpt v.gcsUri = false := by
      simpa [matchesVideosGcs, firstVideo, hbv] using hg1
    have h2 : truthyOpt v.bytesBase64Encoded = false := by
      simpa [matchesVideosBytes, firstVideo, hbv] using hg2
    cases hgu : v.gcsUri with
    | none =>
      cases hbb : v.bytesBase64Encoded with
      | none => simp [extractArtifact, hbv, hgu, hbb]
      | some bb =>
        have hbt : jsTruthy bb = false := by simpa [truthyOpt, hbb] using h2
        simp [extractArtifact, hbv, hgu, hbb, hbt]
    | some u =>
      have hut : jsTruthy u = false := by simpa [truthyOpt, hgu] using h1
      cases hbb : v.bytesBase64Encoded with
      | none => simp [extractArtifact, hbv, hgu, hut, hbb]
      | some bb =>
        have hbt : jsTruthy bb = false := by simpa [truthyOpt, hbb] using h2
        simp [extractArtifact, hbv, hgu, hut, hbb, hbt]

theorem extractFromPredictions_bytes (f : String → Option String) (body : PollResponseBody)
    (p : VideoEntry) (pr : List VideoEntry) (b64 : String)
    (hp : body.predictions = some (p :: pr)) (hb : p.bytesBase64Encoded = some b64)
    (ht : jsTruthy b64 = true) :
    extractFromPredictions f body = .ok (mkVideoDataUri b64) := by
  simp [extractFromPredictions, hp, hb, ht]

theorem extractFromPredictions_gcs (f : String → Option String) (body : PollResponseBody)
    (p : VideoEntry) (pr : List VideoEntry) (u b64 : String)
    (hp : body.predictions = some (p :: pr)) (hb : truthyOpt p.bytesBase64Encoded = false)
    (hg : p.gcsUri = some u) (hu : jsTruthy u = true) (hf : f u = some b64) :
    extractFromPredictions f body = .ok (mkVideoDataUri b64) := by
  cases hbb : p.bytesBase64Encoded with
  | none => simp [extractFromPredictions, hp, hbb, hg, hu, hf]
  | some bb =>
    have hbt : jsTruthy bb = false := by simpa [truthyOpt, hbb] using hb
    simp [extractFromPredictions, hp, hbb, hbt, hg, hu, hf]

theorem extractFromPredictions_none (f : String → Option String) (body : PollResponseBody)
    (h3 : matchesPredictionsBytes body = false) (h4 : matchesPredictionsGcs body = false) :
    extractFromPredictions f body = .error .noArtifact := by
  match hbp : body.predictions with
  | none => simp [extractFromPredictions, hbp]
  | some [] => simp [extractFromPredictions, hbp]
  | some (p :: pr) =>
    have hb : truthyOpt p.bytesBase64Encoded = false := by
      simpa [matchesPredictionsBytes, firstPrediction, hbp] using h3
    have hg : truthyOpt p.gcsUri = false := by
      simpa [matchesPredictionsGcs, firstPrediction, hbp] using h4
    cases hbb : p.bytesBase64Encoded with
    | none =>
      cases hgu : p.gcsUri with
      | none => simp [extractFromPredictions, hbp, hbb, hgu]
      | some u =>
        have hut : jsTruthy u = false := by simpa [truthyOpt, hgu] using hg
        simp [extractFromPredictions, hbp, hbb, hgu, hut]
    | some bb =>
      have hbt : jsTruthy bb = false := by simpa [truthyOpt, hbb] using hb
      cases hgu : p.gcsUri with
      | none => simp [extractFromPredictions, hbp, hbb, hbt, hgu]
      | some u =>
        have hut : jsTruthy u = false := by simpa [truthyOpt, hgu] using hg
        simp [extractFromPredictions, hbp, hbb, hbt, hgu, hut]

/-- Claim C4: artifact extraction is the ordered, first-match-wins,
short-circuiting search of the claim: (1) a truthy `videos[0].gcsUri` whose
fetch succeeds wins outright (whatever `predictions` holds); (2) on fetch
failure the search falls through to `videos[0].bytesBase64Encoded` rather
than failing; (3) when neither `videos` rule matches,
`predictions[0].bytesBase64Encoded` is decoded directly; (4) when rules 1-3 do
not match, a truthy `predictions[0].gcsUri` is fetched; (5) when none of the
four shapes match, extraction fails with `NoArtifact`. -/
theorem veo_artifact_extraction_chain :
    (∀ (f : String → Option String) (body : PollResponseBody) (v : VideoEntry)
        (vr : List VideoEntry) (u b64 : String),
      body.videos = some (v :: vr) → v.gcsUri = some u → u ≠ "" → f u = some b64 →
      extractArtifact f body = .ok (mkVideoDataUri b64)) ∧
    (∀ (f : String → Option String) (body : PollResponseBody) (v : VideoEntry)
        (vr : List VideoEntry) (u b64 : String),
      body.videos = some (v :: vr) → v.gcsUri = some u → u ≠ "" → f u = none →
      v.bytesBase64Encoded = some b64 → b64 ≠ "" →
      extractArtifact f body = .ok (mkVideoDataUri b64)) ∧
    (∀ (f : String → Option String) (body : PollResponseBody) (p : VideoEntry)
        (pr : List VideoEntry) (b64 : String),
      matchesVideosGcs body = false → matchesVideosBytes body = false →
      body.predictions = some (p :: pr) → p.bytesBase64Encoded = some b64 → b64 ≠ "" →
      extractArtifact f body = .ok (mkVideoDataUri b64)) ∧
    (∀ (f : String → Option String) (body : PollResponseBody) (p : VideoEntry)
        (pr : List VideoEntry) (u b64 : String),
      matchesVideosGcs body = false → matchesVideosBytes body = false →
      matchesPredictionsBytes body = false →
      body.predictions = some (p :: pr) → p.gcsUri = some u → u ≠ "" → f u = some b64 →
      extractArtifact f body = .ok (mkVideoDataUri b64)) ∧
    (∀ (f : String → Option String) (body : PollResponseBody),
      matchesVideosGcs body = false → matchesVideosBytes body = false →
      matchesPredictionsBytes body = false → matchesPredictionsGcs body = false →
      extractArtifact f body = .error .noArtifact) := by
  refine ⟨?_, ?_, ?_, ?_, ?_⟩
  · intro f body v vr u b64 hv hg hu hf
    have hut : jsTruthy u = true := (jsTruthy_eq_true_iff u).mpr hu
    simp [extractArtifact, hv, hg, hut, hf]
  · intro f body v vr u b64 hv hg hu hf hb hb64
    have hut : jsTruthy u = true := (jsTruthy_eq_true_iff u).mpr hu
    have hbt : jsTruthy b64 = true := (jsTruthy_eq_true_iff b64).mpr hb64
    simp [extractArtifact, hv, hg, hut, hf, hb, hbt]
  · intro f body p pr b64 hg1 hg2 hp hb hb64
    rw [extractArtifact_to_predictions f body hg1 hg2]
    exact extractFromPredictions_bytes f body p pr b64 hp hb
      ((jsTruthy_eq_true_iff b64).mpr hb64)
  · intro f body p pr u b64 hg1 hg2 hg3 hp hg hu hf
    rw [extractArtifact_to_predictions f body hg1 hg2]
    have hb : truthyOpt p.bytesBase64Encoded = false := by
      simpa [matchesPredictionsBytes, firstPrediction, hp] using hg3
    exact extractFromPredictions_gcs f body p pr u b64 hp hb hg
      ((jsTruthy_eq_true_iff u).mpr hu) hf
  · intro f body hg1 hg2 hg3 hg4
    rw [extractArtifact_to_predictions f body hg1 hg2]
    exact extractFromPredictions_none f body hg3 hg4

/-- Claim C4 witness: a response carrying only
`predictions[0].bytesBase64Encoded` yields that payload decoded, through
rule 3 of the chain. -/
theorem veo_artifact_extraction_chain_witness :
    extractArtifact (fun _ => none)
      { predictions := some [{ bytesBase64Encoded := some "Zm9v" }] } =
      .ok (mkVideoDataUri "Zm9v") :=
  veo_artifact_extraction_chain.2.2.1 (fun _ => none)
    { predictions := some [{ bytesBase64Encoded := some "Zm9v" }] }
    { bytesBase64Encoded := some "Zm9v" } [] "Zm9v"
    (by decide) (by decide) rfl rfl (by decide)

/-- Claim C8 counterexample: the spec's canonical request has a 4-character
base64 payload (`AAAA`), so the Veo path rejects it with the invalid
reference-image error before submitting, instead of yielding the artifact the
claim requires. -/
theorem canonical_scenario_claim_counterexample :
    handleGenerateVideo veoFirstPollDoneBackend hedraCompletingBackend none
      canonicalRequestShortImage = .error (.veo .invalidImage) := by
  decide

/-- Claim C8 (amended): the canonical request, with its reference-image
payload enlarged to pass the 100-character validity check, run against a Veo
backend that returns done with `videos:[bytesBase64Encoded:"Zm9v"]` on the
first poll, yields the artifact `data:video/mp4;base64,Zm9v`. -/
theorem canonical_scenario_with_valid_image :
    handleGenerateVideo veoFirstPollDoneBackend hedraCompletingBackend none
      canonicalRequestLongImage =
      .ok { videoUrl := "data:video/mp4;base64,Zm9v", videoBase64 := some "Zm9v",
            provider := "veo" } := by
  decide

/-- Claim C10: on the Veo path, any normalized request whose reference-image
base64 payload is shorter than 100 characters fails with the
invalid-reference-image error for every backend — the outcome does not depend
on the backend, so no remote submit call is consulted — even though
normalization accepted the request. -/
theorem veo_short_image_rejected_before_submit
    (vb vb' : VeoBackend) (hb : HedraBackend) (kk : Option String)
    (req : RawRequest) (nr : NormalizedRequest)
    (hveo : isVeoProviderField req.provider = true)
    (hnorm : normalizeRequest req = .ok nr)
    (himg : (imageBase64Payload nr.referenceImage).length < 100) :
    handleGenerateVideo vb hb kk req = .error (.veo .invalidImage) ∧
    handleGenerateVideo vb hb kk req = handleGenerateVideo vb' hb kk req := by
  have h1 : (req.provider == some "hedra") = false := by
    cases hb1 : req.provider == some "hedra"
    · rfl
    · exfalso
      rw [isVeoProviderField, hb1] at hveo
      simp at hveo
  have h2 : (req.provider == some "kling") = false := by
    cases hb2 : req.provider == some "kling"
    · rfl
    · exfalso
      rw [isVeoProviderField, hb2] at hveo
      simp at hveo
  have hcomp : ∀ vbx : VeoBackend,
      handleGenerateVideo vbx hb kk req = .error (.veo .invalidImage) := by
    intro vbx
    simp only [handleGenerateVideo, hnorm, dispatchProvider, h1, h2, Bool.false_eq_true,
      if_false]
    simp [generateVeoVideo, himg, Except.mapError]
  exact ⟨hcomp vb, by rw [hcomp vb, hcomp vb']⟩

/-- Claim C10 witness: a concrete default-provider request with a 3-character
payload is rejected as an invalid reference image, identically under two
different backends. -/
theorem veo_short_image_rejected_before_submit_witness :
    handleGenerateVideo veoFirstPollDoneBackend hedraCompletingBackend none
      shortImageRequestNoProvider = .error (.veo .invalidImage) ∧
    handleGenerateVideo veoFirstPollDoneBackend hedraCompletingBackend none
      shortImageRequestNoProvider =
    handleGenerateVideo veoSubmitFailBackend hedraCompletingBackend none
      shortImageRequestNoProvider :=
  veo_short_image_rejected_before_submit veoFirstPollDoneBackend veoSubmitFailBackend
    hedraCompletingBackend none shortImageRequestNoProvider
    { scriptText := "Hello there", direction := "",
      referenceImage := "data:image/jpeg;base64,QUJD" }
    (by decide) (by decide) (by decide)

theorem extractFromPredictions_ok_shape {f : String → Option String}
    {body : PollResponseBody} {s : String}
    (h : extractFromPredictions f body = .ok s) : ∃ p, s = mkVideoDataUri p := by
  match hbp : body.predictions with
  | none => simp [extractFromPredictions, hbp] at h
  | some [] => simp [extractFromPredictions, hbp] at h
  | some (p :: pr) =>
    cases hbb : p.bytesBase64Encoded with
    | some bb =>
      cases hbt : jsTruthy bb with
      | true =>
        simp only [extractFromPredictions, hbp, hbb, hbt, if_true] at h
        exact ⟨bb, (Except.ok.inj h).symm⟩
      | false =>
        cases hgu : p.gcsUri with
        | none => simp [extractFromPredictions, hbp, hbb, hbt, hgu] at h
        | some u =>
          cases hut : jsTruthy u with
          | false => simp [extractFromPredictions, hbp, hbb, hbt, hgu, hut] at h
          | true =>
            cases hf : f u with
            | none => simp [extractFromPredictions, hbp, hbb, hbt, hgu, hut, hf] at h
            | some b =>
              simp only [extractFromPredictions, hbp, hbb, hbt, hgu, hut, hf, if_true] at h
              exact ⟨b, (Except.ok.inj h).symm⟩
    | none =>
      cases hgu : p.gcsUri with
      | none => simp [extractFromPredictions, hbp, hbb, hgu] at h
      | some u =>
        cases hut : jsTruthy u with
        | false => simp [extractFromPredictions, hbp, hbb, hgu, hut] at h
        | true =>
          cases hf : f u with
          | none => simp [extractFromPredictions, hbp, hbb, hgu, hut, hf] at h
          | some b =>
            simp only [extractFromPredictions, hbp, hbb, hgu, hut, hf, if_true] at h
            exact ⟨b, (Except.ok.inj h).symm⟩

theorem extractArtifact_ok_shape {f : String → Option String}
    {body : PollResponseBody} {s : String}
    (h : extractArtifact f body = .ok s) : ∃ p, s = mkVideoDataUri p := by
  match hbv : body.videos with
  | none =>
    simp only [extractArtifact, hbv] at h
    exact extractFromPredictions_ok_shape h
  | some [] =>
    simp only [extractArtifact, hbv] at h
    exact extractFromPredictions_ok_shape h
  | some (v :: vr) =>
    have hbytes : ∀ hvia :
        (match v.gcsUri with
          | some u => if jsTruthy u then (f u).map mkVideoDataUri else none
          | none => none) = none,
        (match v.bytesBase64Encoded with
          | some b =>
            if jsTruthy b then Except.ok (mkVideoDataUri b)
            else extractFromPredictions f body
          | none => extractFromPredictions f body) = .ok s →
        ∃ p, s = mkVideoDataUri p := by
      intro hvia hh
      cases hbb : v.bytesBase64Encoded with
      | none =>
        rw [hbb] at hh
        exact extractFromPredictions_ok_shape hh
      | some bb =>
        cases hbt : jsTruthy bb with
        | false =>
          rw [hbb] at hh
          simp only [hbt, Bool.false_eq_true, if_false] at hh
          exact extractFromPredictions_ok_shape hh
        | true =>
          rw [hbb] at hh
          simp only [hbt, if_true] at hh
          exact ⟨bb, (Except.ok.inj hh).symm⟩
    cases hgu : v.gcsUri with
    | none =>
      simp only [extractArtifact, hbv, hgu] at h
      exact hbytes (by rw [hgu]) h
    | some u =>
      cases hut : jsTruthy u with
      | false =>
        simp only [extractArtifact, hbv, hgu, hut, Bool.false_eq_true, if_false] at h
        exact hbytes (by rw [hgu]; simp [hut]) h
      | true =>
        cases hf : f u with
        | none =>
          simp only [extractArtifact, hbv, hgu, hut, hf, if_true, Option.map_none'] at h
          exact hbytes (by rw [hgu]; simp [hut, hf]) h
        | some b =>
          simp only [extractArtifact, hbv, hgu, hut, hf, if_true, Option.map_some'] at h
          exact ⟨b, (Except.ok.inj h).symm⟩

theorem pollVeo_ok_shape (f : String → Option String) (polls : Nat → PollOutcome) :
    ∀ fuel made s, pollVeoOperation f polls made fuel = .ok s →
    ∃ p, s = mkVideoDataUri p := by
  intro fuel
  induction fuel with
  | zero => intro made s h; simp [pollVeoOperation] at h
  | succ n ih =>
    intro made s h
    match hpm : polls made with
    | .httpError st b => simp [pollVeoOperation, hpm] at h
    | .reply d e r =>
      cases d
      · have h' : pollVeoOperation f polls (made + 1) n = .ok s := by
          simpa [pollVeoOperation, hpm] using h
        exact ih (made + 1) s h'
      · cases he : e with
        | some msg => simp [pollVeoOperation, hpm, he] at h
        | none =>
          have h' : extractArtifact f (r.getD {}) = .ok s := by
            simpa [pollVeoOperation, hpm, he] using h
          exact extractArtifact_ok_shape h'

theorem generateVeoVideo_ok_shape (b : VeoBackend)
    (scriptText direction referenceImage : String)
    (country videoStyleOpt voiceAccentOpt : Option String) (s : String)
    (h : generateVeoVideo b scriptText direction referenceImage country
      videoStyleOpt voiceAccentOpt = .ok s) :
    ∃ p, s = mkVideoDataUri p := by
  simp only [generateVeoVideo] at h
  split at h
  · simp at h
  · split at h
    · simp at h
    · split at h
      · simp at h
      · split at h
        · split at h
          · exact pollVeo_ok_shape b.fetchUri b.polls 60 0 s h
          · simp at h
        · simp at h

theorem occursAt_singleton (c : Char) (l : List Char) (i : Nat) :
    occursAt [c] l i = true ↔ l[i]? = some c := by
  unfold occursAt
  rw [← List.head?_drop]
  cases l.drop i with
  | nil => simp [List.isPrefixOf]
  | cons x xs =>
    simp [List.isPrefixOf]
    exact eq_comm

theorem occursAt_singleton_false_of_ne (c : Char) (a t : List Char) (hc : c ∉ a) :
    ∀ i, i < a.length → occursAt [c] (a ++ t) i = false := by
  intro i hi
  cases ho : occursAt [c] (a ++ t) i
  · rfl
  · exfalso
    have hv : (a ++ t)[i]? = some c := (occursAt_singleton c _ i).mp ho
    rw [List.getElem?_append_left hi] at hv
    exact hc (List.getElem?_mem hv)

theorem occursAt_singleton_false_of_not_mem (c : Char) (l : List Char) (hc : c ∉ l) :
    ∀ j, occursAt [c] l j = false := by
  intro j
  cases ho : occursAt [c] l j
  · rfl
  · exact absurd (List.getElem?_mem ((occursAt_singleton c l j).mp ho)) hc

theorem jsStartsWith_dataUri (p : String) :
    jsStartsWith (mkVideoDataUri p) "data:" = true := rfl

theorem jsSplit_dataUri (p : String) (hc : ',' ∉ p.data) :
    (jsSplit (mkVideoDataUri p) ",")[1]? = some p := by
  have heq : mkVideoDataUri p = "data:video/mp4;base64" ++ "," ++ p := by
    apply String.ext
    show "data:video/mp4;base64,".data ++ p.data =
      ("data:video/mp4;base64".data ++ ",".data) ++ p.data
    have hpre : "data:video/mp4;base64,".data =
        "data:video/mp4;base64".data ++ ",".data := by decide
    rw [hpre]
  have hb : ∀ i, i < ("data:video/mp4;base64" : String).data.length →
      occursAt (("," : String).data)
        (("data:video/mp4;base64" : String).data ++ ((("," : String).data) ++ p.data)) i =
        false := by
    intro i hi
    exact occursAt_singleton_false_of_ne ',' _ _ (by decide) i hi
  have ht : ∀ j, occursAt (("," : String).data) p.data j = false :=
    occursAt_singleton_false_of_not_mem ',' p.data hc
  have hsplit : jsSplit ("data:video/mp4;base64" ++ "," ++ p) "," =
      ["data:video/mp4;base64", p] :=
    jsSplit_cut "," (by decide) "data:video/mp4;base64" p hb ht
  rw [heq, hsplit]
  simp

theorem veo_branch_conditions {p : Option String} (h : isVeoProviderField p = true) :
    (p == some "hedra") = false ∧ (p == some "kling") = false := by
  refine ⟨?_, ?_⟩
  · cases hb : p == some "hedra"
    · rfl
    · rw [isVeoProviderField, hb] at h
      simp at h
  · cases hb : p == some "kling"
    · rfl
    · rw [isVeoProviderField, hb] at h
      simp at h

/-- Claim C9 (amended): every Veo-path success carries the artifact as a
`data:video/mp4;base64,<payload>` string in `videoUrl`, and `videoBase64` is
the text after the first comma of that string — the payload itself whenever
the backend-supplied payload contains no comma (true of genuine base64).  A
success whose artifact is not a data URI (the Hedra path's CDN URL) instead
carries `videoBase64 = null`. -/
theorem response_artifact_shape :
    (∀ (vb : VeoBackend) (hbk : HedraBackend) (kk : Option String)
        (req : RawRequest) (r : GenResponse),
      isVeoProviderField req.provider = true →
      handleGenerateVideo vb hbk kk req = .ok r →
      ∃ p, r.videoUrl = mkVideoDataUri p ∧ (',' ∉ p.data → r.videoBase64 = some p)) ∧
    (∀ (vb : VeoBackend) (hbk : HedraBackend) (kk : Option String)
        (req : RawRequest) (r : GenResponse),
      handleGenerateVideo vb hbk kk req = .ok r →
      jsStartsWith r.videoUrl "data:" = false → r.videoBase64 = none) := by
  constructor
  · intro vb hbk kk req r hveo hok
    obtain ⟨h1, h2⟩ := veo_branch_conditions hveo
    cases hnorm : normalizeRequest req with
    | error e => simp [handleGenerateVideo, hnorm] at hok
    | ok nr =>
      simp only [handleGenerateVideo, hnorm] at hok
      have hdis : dispatchProvider vb hbk kk req nr =
          (generateVeoVideo vb nr.scriptText nr.direction nr.referenceImage req.country
            req.videoStyle req.voiceAccent).mapError .veo := by
        simp [dispatchProvider, h1, h2]
      rw [hdis] at hok
      cases hgen : generateVeoVideo vb nr.scriptText nr.direction nr.referenceImage
          req.country req.videoStyle req.voiceAccent with
      | error e => rw [hgen] at hok; simp [Except.mapError] at hok
      | ok v =>
        rw [hgen] at hok
        simp only [Except.mapError] at hok
        obtain ⟨pp, hpp⟩ := generateVeoVideo_ok_shape vb nr.scriptText nr.direction
          nr.referenceImage req.country req.videoStyle req.voiceAccent v hgen
        subst hpp
        have hr : r = buildGenResponse req.provider (mkVideoDataUri pp) :=
          (Except.ok.inj hok).symm
        refine ⟨pp, ?_, ?_⟩
        · rw [hr]
          rfl
        · intro hcomma
          rw [hr]
          show (if jsStartsWith (mkVideoDataUri pp) "data:" then
            (jsSplit (mkVideoDataUri pp) ",")[1]? else none) = some pp
          rw [jsStartsWith_dataUri pp, if_pos rfl]
          exact jsSplit_dataUri pp hcomma
  · intro vb hbk kk req r hok hns
    cases hnorm : normalizeRequest req with
    | error e => simp [handleGenerateVideo, hnorm] at hok
    | ok nr =>
      simp only [handleGenerateVideo, hnorm] at hok
      cases hres : dispatchProvider vb hbk kk req nr with
      | error e => simp [hres] at hok
      | ok v =>
        simp only [hres] at hok
        have hr : r = buildGenResponse req.provider v := (Except.ok.inj hok).symm
        subst hr
        have hv : jsStartsWith v "data:" = false := hns
        show (if jsStartsWith v "data:" then (jsSplit v ",")[1]? else none) = none
        rw [hv]
        simp

/-- Claim C9 witness: the amended theorem applied to the concrete
valid-image canonical request against the first-poll-done Veo backend. -/
theorem response_artifact_shape_witness :
    ∃ p, ({ videoUrl := "data:video/mp4;base64,Zm9v", videoBase64 := some "Zm9v",
            provider := "veo" } : GenResponse).videoUrl = mkVideoDataUri p ∧
      (',' ∉ p.data →
        ({ videoUrl := "data:video/mp4;base64,Zm9v", videoBase64 := some "Zm9v",
           provider := "veo" } : GenResponse).videoBase64 = some p) :=
  response_artifact_shape.1 veoFirstPollDoneBackend hedraCompletingBackend none
    canonicalRequestLongImage
    { videoUrl := "data:video/mp4;base64,Zm9v", videoBase64 := some "Zm9v",
      provider := "veo" }
    (by decide) (by decide)

/-- Claim C9 counterexample: a successfully completed Hedra-path request
returns a plain CDN URL with a null `videoBase64`; its response does not carry
a `data:video/mp4;base64` artifact with the payload split out, contradicting
the claim's universal statement over successful requests. -/
theorem response_artifact_claim_counterexample :
    handleGenerateVideo veoFirstPollDoneBackend hedraCompletingBackend none
      { scriptText := some "Hi", referenceImage := some "data:image/png;base64,AAAA",
        provider := some "hedra" } =
      .ok { videoUrl := "https://cdn.example.com/v.mp4", videoBase64 := none,
            provider := "hedra" } ∧
    jsStartsWith "https://cdn.example.com/v.mp4" "data:video/mp4;base64," = false := by
  decide
